import Mathlib

/-!
Verification of the DriveGreen CO2-emission prediction backend.

Shallow embedding of the feature-preprocessing pipeline, input validation,
severity classification and endpoint error handling found in
`src/backend/routers/predict_router.py`, `src/backend/routers/prediction_router.py`,
`src/backend/utils/preprocess.py` and `src/backend/app.py`.

Floating-point numeric state is modelled with `ℚ` where the code only compares
and copies values, and with `ℝ` where the code applies `np.log` / `np.exp`.
-/

namespace DriveGreen

/-- Python exceptions that can propagate out of the preprocessing and
inference code: `ValueError` (raised explicitly by the validators, the
log-transform guard, the artifact checks of `prediction_router.preprocess_input`
and by the sklearn encoder on an unknown category) and `AttributeError`
(raised by Python itself when a method is called on `None`). -/
inductive PyExc where
  | valueError : String → PyExc
  | attributeError : String → PyExc
deriving DecidableEq

/-- `str(e)` on a Python exception: its message. -/
def PyExc.message : PyExc → String
  | .valueError m => m
  | .attributeError m => m

/-- Result of a FastAPI endpoint: a typed response body, or an
`HTTPException(status_code, detail)`. -/
inductive HttpResult (α : Type) where
  | ok : α → HttpResult α
  | httpError : Nat → String → HttpResult α

/-- `validate_engine_size` from `PredictionInput`
(`predict_router.py` lines 117-140, identical in `prediction_router.py`
lines 181-211): rejects values below 0.9 or above 8.4 with a `ValueError`
naming the field and both bounds. -/
def validate_engine_size (v : ℚ) : Except String ℚ :=
  if v < 9/10 ∨ v > 42/5 then
    .error "Engine size must be between 0.9 and 8.4 liters"
  else
    .ok v

/-- `validate_cylinders` from `PredictionInput`
(`predict_router.py` lines 142-161, identical in `prediction_router.py`
lines 213-233): rejects values below 3 or above 16. -/
def validate_cylinders (v : ℤ) : Except String ℤ :=
  if v < 3 ∨ v > 16 then
    .error "Cylinders must be between 3 and 16"
  else
    .ok v

/-- `interpret_emissions` from `predict_router.py` lines 325-380:
maps a CO2 value to a `(interpretation, category, color)` triple through
an if/elif chain with cutpoints 120, 160, 200, 250. -/
def interpret_emissions (co2_value : ℚ) : String × String × String :=
  if co2_value < 120 then
    ("🌟 Excellent! This vehicle has very low emissions and is highly environmentally friendly. You\x27ll save money on fuel and contribute less to climate change.",
     "Excellent", "#10b981")
  else if co2_value < 160 then
    ("✅ Good! This vehicle has moderate emissions and is reasonably eco-friendly. A solid choice for balancing performance and environmental impact.",
     "Good", "#22c55e")
  else if co2_value < 200 then
    ("⚠️ Average. This vehicle has typical emissions for its class. Consider more fuel-efficient options if environmental impact is a priority.",
     "Average", "#f59e0b")
  else if co2_value < 250 then
    ("🔴 High. This vehicle produces above-average emissions. Expect higher fuel costs and greater environmental impact.",
     "High", "#ef4444")
  else
    ("🚨 Very High. This vehicle produces significant emissions. Fuel costs will be substantial and environmental impact is considerable.",
     "Very High", "#dc2626")

/-- `interpret_emissions` from `prediction_router.py` lines 491-581: same
cutpoints and category labels, different description texts and two
different colors. -/
def interpret_emissions_v2 (co2_value : ℚ) : String × String × String :=
  if co2_value < 120 then
    ("Excellent! This vehicle has very low emissions and is highly environmentally friendly. You\x27ll save money on fuel and contribute less to climate change.",
     "Excellent", "#09422f")
  else if co2_value < 160 then
    ("Good! This vehicle has moderate emissions and is reasonably eco-friendly. A solid choice for balancing performance and environmental impact.",
     "Good", "#22c55e")
  else if co2_value < 200 then
    ("Average. This vehicle has typical emissions for its class. Consider more fuel-efficient options if environmental impact is a priority.",
     "Average", "#f59e0b")
  else if co2_value < 250 then
    ("High. This vehicle produces above-average emissions. Expect higher fuel costs and greater environmental impact.",
     "High", "#f74f4f")
  else
    ("Very High. This vehicle produces significant emissions. Fuel costs will be substantial and environmental impact is considerable.",
     "Very High", "#dc2626")

/-- Modelled from the spec: the categorical encoder artifact
(`model/encoder.pkl`, an sklearn `OneHotEncoder` with `drop=None`) is not in
the repository; per the spec it defines "the fixed category set and one-hot
column order for `fuel_type`".  One column per category, in the encoder's
declared order; the cell is 1 exactly on the matching category. -/
def oneHotEncode (categories : List String) (fuel : String) : List ℚ :=
  categories.map (fun c => if c = fuel then 1 else 0)

/-- Modelled from the spec: `encoder.transform` on a single-row frame.
sklearn's `OneHotEncoder` (default `handle_unknown` behaviour) raises a
`ValueError` when the category was not seen at fit time; otherwise it
returns the one-hot row in the training-declared column order. -/
def encoderTransform (categories : List String) (fuel : String) :
    Except PyExc (List ℚ) :=
  if fuel ∈ categories then
    .ok (oneHotEncode categories fuel)
  else
    .error (.valueError ("Found unknown categories during transform: " ++ fuel))

/-- Modelled from the spec: the five canonical fuel-type codes, in the
column order the in-source docstrings declare for the trained encoder
(`predict_router.py` lines 247-253: X, Z, E, D, N with `drop=None`). -/
def trainedFuelCategories : List String := ["X", "Z", "E", "D", "N"]

/-- The one-hot vector the spec describes: exactly one 1, at column `i`,
among five columns.  Used to compare the encoder-derived vector against the
spec's words. -/
def oneHotSpec (i : ℕ) : List ℚ :=
  (List.range 5).map (fun j => if j = i then 1 else 0)

/-- Modelled from the spec: the scaler artifact (`model/scaler.pkl`, an
sklearn `StandardScaler`) holds per-column mean/standard-deviation pairs
captured at training time. -/
def ScalerModel : Type := List (ℚ × ℚ)

/-- Modelled from the spec: `scaler.transform` standardizes each column with
the training-time statistics: `(value - mean) / std`. -/
noncomputable def scalerTransform (sc : ScalerModel) (v : List ℝ) : List ℝ :=
  List.zipWith (fun x p => (x - (p.1 : ℝ)) / (p.2 : ℝ)) v sc

/-- The forward numeric transform of the training pipeline as applied in
`preprocess_input` (`predict_router.py` line 275): `np.log`. -/
noncomputable def forwardNumericTransform (x : ℝ) : ℝ := Real.log x

/-- The inverse target transform applied after inference in
`predict_emissions` (`predict_router.py` line 450): `np.exp`. -/
noncomputable def inverseTargetTransform (y : ℝ) : ℝ := Real.exp y

/-- `round(float(x), 2)` from `predict_router.py` line 451. -/
noncomputable def round2 (x : ℝ) : ℝ := (round (100 * x) : ℤ) / 100

/-- STEP 1 of `preprocess_input` (`predict_router.py` lines 274-279,
identical in `prediction_router.py` lines 414-419): `np.log` on both numeric
fields inside a `try`, with a `ValueError` re-raised as a log-transform
error.  The logarithm faults (at most) on non-positive arguments, so the
guard is modelled as firing exactly there. -/
noncomputable def logTransformStep (engine_size : ℚ) (cylinders : ℤ) :
    Except PyExc (ℝ × ℝ) :=
  if engine_size ≤ 0 ∨ cylinders ≤ 0 then
    .error (.valueError "Log transform error: math domain error. Engine size and cylinders must be positive.")
  else
    .ok (forwardNumericTransform engine_size, forwardNumericTransform cylinders)

/-- `preprocess_input` from `predict_router.py` lines 186-322: log transform,
one-hot encode via the encoder module global, concatenate
`[log_engine, log_cylinders] ++ one-hot`, scale via the scaler module global.
The function performs NO artifact check of its own: calling
`encoder.transform` or `scaler.transform` with the global still `None`
raises Python's `AttributeError`. -/
noncomputable def predictRouterPreprocess (encoder : Option (List String))
    (scaler : Option ScalerModel) (fuel_type : String) (engine_size : ℚ)
    (cylinders : ℤ) : Except PyExc (List ℝ) :=
  match logTransformStep engine_size cylinders with
  | .error e => .error e
  | .ok (log_engine_size, log_cylinders) =>
    match encoder with
    | none => .error (.attributeError "NoneType object has no attribute transform")
    | some categories =>
      match encoderTransform categories fuel_type with
      | .error e => .error e
      | .ok cat_encoded =>
        let combined : List ℝ :=
          log_engine_size :: log_cylinders :: cat_encoded.map (fun q => (q : ℝ))
        match scaler with
        | none => .error (.attributeError "NoneType object has no attribute transform")
        | some sc => .ok (scalerTransform sc combined)

/-- `preprocess_input` from `prediction_router.py` lines 274-486: same
pipeline, but with explicit defensive artifact checks — `ValueError` when
the encoder global is `None` (lines 441-442) and when the scaler global is
`None` (lines 476-477), each raised at its step of the pipeline. -/
noncomputable def predictionRouterPreprocess (encoder : Option (List String))
    (scaler : Option ScalerModel) (fuel_type : String) (engine_size : ℚ)
    (cylinders : ℤ) : Except PyExc (List ℝ) :=
  match logTransformStep engine_size cylinders with
  | .error e => .error e
  | .ok (log_engine_size, log_cylinders) =>
    match encoder with
    | none => .error (.valueError "Encoder not loaded. Cannot perform one-hot encoding.")
    | some categories =>
      match encoderTransform categories fuel_type with
      | .error e => .error e
      | .ok cat_encoded =>
        let combined : List ℝ :=
          log_engine_size :: log_cylinders :: cat_encoded.map (fun q => (q : ℝ))
        match scaler with
        | none => .error (.valueError "Scaler not loaded. Cannot perform feature scaling.")
        | some sc => .ok (scalerTransform sc combined)

/-- The vector `src/backend/utils/preprocess.py` hands to `scaler.transform`
(lines 14-19): raw `engine_size` and `cylinders` columns concatenated with
the one-hot block — no numeric transform is applied. -/
def utilsPreScaling (categories : List String) (fuel_type : String)
    (engine_size cylinders : ℚ) : List ℚ :=
  engine_size :: cylinders :: oneHotEncode categories fuel_type

/-- `preprocess_input` from `src/backend/utils/preprocess.py` lines 4-21:
one-hot encode, concatenate with the raw numeric columns, scale. -/
noncomputable def utilsPreprocessInput (categories : List String)
    (sc : ScalerModel) (fuel_type : String) (engine_size cylinders : ℚ) :
    Except PyExc (List ℝ) :=
  match encoderTransform categories fuel_type with
  | .error e => .error e
  | .ok _ =>
    .ok (scalerTransform sc
      ((utilsPreScaling categories fuel_type engine_size cylinders).map (fun q => (q : ℝ))))

/-- Response body of `/predict` (`PredictionOutput`,
`predict_router.py` lines 173-183). -/
structure PredictionOutput where
  predicted_co2_emissions : ℝ
  unit : String
  interpretation : String
  category : String
  color : String

/-- The `except` clauses of `predict_emissions`
(`predict_router.py` lines 472-483): a `ValueError` becomes
`HTTPException(422, str(e))`, any other exception becomes
`HTTPException(400, "Prediction error: " + str(e))`. -/
def excHandler : PyExc → HttpResult PredictionOutput
  | .valueError m => .httpError 422 m
  | .attributeError m => .httpError 400 ("Prediction error: " ++ m)

/-- The regressor artifact, opaque: maps a feature vector to the model's
log-scale prediction, possibly raising. -/
def Regressor : Type := List ℝ → Except PyExc ℝ

/-- The `try` body of `predict_emissions` (`predict_router.py`
lines 425-483, structurally identical in `prediction_router.py`
lines 648-733): preprocess, predict, `np.exp`, round to 2 decimals,
interpret, build the response; exceptions routed through `excHandler`. -/
noncomputable def predictTryBody (m : Regressor) (enc : List String)
    (sc : ScalerModel) (fuel_type : String) (engine_size : ℚ)
    (cylinders : ℤ) : HttpResult PredictionOutput :=
  match predictRouterPreprocess (some enc) (some sc) fuel_type engine_size cylinders with
  | .error e => excHandler e
  | .ok scaled_features =>
    match m scaled_features with
    | .error e => excHandler e
    | .ok log_prediction =>
      let co2_value : ℚ := (round (100 * inverseTargetTransform log_prediction) : ℤ) / 100
      let itp := interpret_emissions co2_value
      .ok ⟨(co2_value : ℝ), "g/km", itp.1, itp.2.1, itp.2.2⟩

/-- Entry of `predict_emissions`: the artifact check guarding the `try`
body above. -/
noncomputable def predict_emissions (model : Option Regressor)
    (encoder : Option (List String)) (scaler : Option ScalerModel)
    (fuel_type : String) (engine_size : ℚ) (cylinders : ℤ) :
    HttpResult PredictionOutput :=
  match model, encoder, scaler with
  | some m, some enc, some sc =>
    predictTryBody m enc sc fuel_type engine_size cylinders
  | _, _, _ =>
    .httpError 503 "Prediction service not fully initialized. Missing model, encoder, or scaler."

/-- Body of the `/predict` endpoint of `src/backend/app.py` lines 34-47:
the handler wraps the whole pipeline in `try`/`except Exception` and returns
a plain JSON body either way — `{"predicted_CO2_emission": v}` on success,
`{"error": str(e)}` on any exception — always with HTTP status 200. -/
inductive AppResponse where
  | prediction : ℝ → AppResponse
  | errorBody : String → AppResponse

/-- `predict_emission` from `src/backend/app.py` lines 34-47, parameterized
over the outcome of `prepare_input` + `model.predict` (the pipeline up to
the log-scale prediction): the result is `(HTTP status, body)`, and every
exception is caught and surfaced as an `{"error": ...}` body with status
200. -/
noncomputable def app_predict_emission (pipeline : Except PyExc ℝ) :
    Nat × AppResponse :=
  match pipeline with
  | .ok prediction_log =>
    (200, .prediction (round2 (inverseTargetTransform prediction_log)))
  | .error e => (200, .errorBody e.message)

/-- 4xx-equivalent (client-caused) status class. -/
def statusIsClientError (n : Nat) : Prop := 400 ≤ n ∧ n < 500

/-- 5xx-equivalent (infrastructure) status class. -/
def statusIsServerError (n : Nat) : Prop := 500 ≤ n ∧ n < 600

/-- Index of the severity band the if/elif chain of `interpret_emissions`
selects, in the order Excellent (0) < Good (1) < Average (2) < High (3) <
Very High (4). -/
def bandOf (v : ℚ) : ℕ :=
  if v < 120 then 0
  else if v < 160 then 1
  else if v < 200 then 2
  else if v < 250 then 3
  else 4

/-- A representative CO2 value inside each severity band. -/
def bandRepresentative : ℕ → ℚ
  | 0 => 100
  | 1 => 130
  | 2 => 180
  | 3 => 220
  | _ => 300

/-- The fixed `(interpretation, category, color)` triple of each band:
the value `interpret_emissions` takes throughout that band. -/
def bandTriple (n : ℕ) : String × String × String :=
  interpret_emissions (bandRepresentative n)

/-- Does a preprocessing result consist of a raised `ValueError`?  Used to
state that `predict_router.preprocess_input` with an absent artifact fails
with an untyped `AttributeError`, not a typed `ValueError`. -/
def isValueErrorResult : Except PyExc (List ℝ) → Bool
  | .error (.valueError _) => true
  | _ => false

/-- A concrete stand-in for the scaler artifact's per-column statistics,
used to instantiate theorems at concrete inputs. -/
def sampleScaler : ScalerModel :=
  [(0, 1), (0, 1), (0, 1), (0, 1), (0, 1), (0, 1), (0, 1)]

end DriveGreen

namespace DriveGreen

/-! ## Helper lemmas -/

/-- A value the engine-size validator accepts lies in `[0.9, 8.4]`. -/
theorem engine_bounds_of_ok (e : ℚ) (h : validate_engine_size e = .ok e) :
    9/10 ≤ e ∧ e ≤ 42/5 := by
  unfold validate_engine_size at h
  by_cases hc : e < 9/10 ∨ e > 42/5
  · rw [if_pos hc] at h
    exact absurd h (by simp)
  · push_neg at hc
    exact hc

/-- A value the cylinder validator accepts lies in `[3, 16]`. -/
theorem cylinder_bounds_of_ok (c : ℤ) (h : validate_cylinders c = .ok c) :
    3 ≤ c ∧ c ≤ 16 := by
  unfold validate_cylinders at h
  by_cases hc : c < 3 ∨ c > 16
  · rw [if_pos hc] at h
    exact absurd h (by simp)
  · push_neg at hc
    exact hc

/-- On strictly positive arguments the log-transform step succeeds and
returns the two log-transformed values. -/
theorem logTransformStep_pos (e : ℚ) (c : ℤ) (he : 0 < e) (hc : 0 < c) :
    logTransformStep e c =
      .ok (forwardNumericTransform e, forwardNumericTransform c) := by
  unfold logTransformStep
  rw [if_neg]
  push_neg
  exact ⟨he, by exact_mod_cast hc⟩

end DriveGreen

namespace DriveGreen

/-! ## Claim theorems -/

/-- C2: the severity classification maps every CO2 value into exactly the
five bands with cutpoints 120, 160, 200, 250 — `< 120` Excellent,
`[120,160)` Good, `[160,200)` Average, `[200,250)` High, `≥ 250` Very High —
in both `interpret_emissions` implementations; in particular exactly 120.00
classifies as "Good" and 250.00 as "Very High". -/
theorem interpret_emissions_thresholds :
    (∀ v : ℚ, v < 120 →
      (interpret_emissions v).2.1 = "Excellent" ∧ (interpret_emissions_v2 v).2.1 = "Excellent")
  ∧ (∀ v : ℚ, 120 ≤ v → v < 160 →
      (interpret_emissions v).2.1 = "Good" ∧ (interpret_emissions_v2 v).2.1 = "Good")
  ∧ (∀ v : ℚ, 160 ≤ v → v < 200 →
      (interpret_emissions v).2.1 = "Average" ∧ (interpret_emissions_v2 v).2.1 = "Average")
  ∧ (∀ v : ℚ, 200 ≤ v → v < 250 →
      (interpret_emissions v).2.1 = "High" ∧ (interpret_emissions_v2 v).2.1 = "High")
  ∧ (∀ v : ℚ, 250 ≤ v →
      (interpret_emissions v).2.1 = "Very High" ∧ (interpret_emissions_v2 v).2.1 = "Very High")
  ∧ (interpret_emissions 120).2.1 = "Good" ∧ (interpret_emissions_v2 120).2.1 = "Good"
  ∧ (interpret_emissions 250).2.1 = "Very High"
  ∧ (interpret_emissions_v2 250).2.1 = "Very High" := by
  refine ⟨?_, ?_, ?_, ?_, ?_, ?_, ?_, ?_, ?_⟩
  · intro v h1
    simp [interpret_emissions, interpret_emissions_v2, h1]
  · intro v h1 h2
    have a : ¬ v < 120 := by linarith
    simp [interpret_emissions, interpret_emissions_v2, a, h2]
  · intro v h1 h2
    have a : ¬ v < 120 := by linarith
    have b : ¬ v < 160 := by linarith
    simp [interpret_emissions, interpret_emissions_v2, a, b, h2]
  · intro v h1 h2
    have a : ¬ v < 120 := by linarith
    have b : ¬ v < 160 := by linarith
    have c : ¬ v < 200 := by linarith
    simp [interpret_emissions, interpret_emissions_v2, a, b, c, h2]
  · intro v h1
    have a : ¬ v < 120 := by linarith
    have b : ¬ v < 160 := by linarith
    have c : ¬ v < 200 := by linarith
    have d : ¬ v < 250 := by linarith
    simp [interpret_emissions, interpret_emissions_v2, a, b, c, d]
  · norm_num [interpret_emissions]
  · norm_num [interpret_emissions_v2]
  · norm_num [interpret_emissions]
  · norm_num [interpret_emissions_v2]

/-- Witness for C2: the band facts instantiated at the concrete value 130. -/
theorem interpret_emissions_thresholds_witness :
    (interpret_emissions 130).2.1 = "Good" ∧ (interpret_emissions_v2 130).2.1 = "Good" :=
  interpret_emissions_thresholds.2.1 130 (by norm_num) (by norm_num)

/-- C3: the validators accept `engine_size` 0.9 and 8.4 and reject 0.89 and
8.41 with the `ValueError` message naming the engine-size field and both
bounds; cylinders 3 and 16 are accepted, 2 and 17 rejected with the message
naming the cylinders field and its bounds. -/
theorem validation_boundaries :
    validate_engine_size (9/10) = .ok (9/10)
  ∧ validate_engine_size (42/5) = .ok (42/5)
  ∧ validate_engine_size (89/100) = .error "Engine size must be between 0.9 and 8.4 liters"
  ∧ validate_engine_size (841/100) = .error "Engine size must be between 0.9 and 8.4 liters"
  ∧ validate_cylinders 3 = .ok 3
  ∧ validate_cylinders 16 = .ok 16
  ∧ validate_cylinders 2 = .error "Cylinders must be between 3 and 16"
  ∧ validate_cylinders 17 = .error "Cylinders must be between 3 and 16" := by
  refine ⟨?_, ?_, ?_, ?_, ?_, ?_, ?_, ?_⟩ <;>
    norm_num [validate_engine_size, validate_cylinders]

/-- C10: `interpret_emissions` is total — every rational CO2 value is mapped
to one of the five fixed band triples, the one selected by `bandOf` — and the
band index is monotone in the CO2 value, in the order Excellent < Good <
Average < High < Very High. -/
theorem interpret_emissions_total_monotone :
    (∀ v : ℚ, bandOf v ≤ 4 ∧ interpret_emissions v = bandTriple (bandOf v))
  ∧ (∀ x y : ℚ, x ≤ y → bandOf x ≤ bandOf y) := by
  constructor
  · intro v
    unfold bandOf
    split_ifs with h1 h2 h3 h4
    · refine ⟨by norm_num, ?_⟩
      rw [show bandTriple 0 = interpret_emissions 100 from rfl]
      unfold interpret_emissions
      rw [if_pos h1, if_pos (show (100 : ℚ) < 120 by norm_num)]
    · refine ⟨by norm_num, ?_⟩
      rw [show bandTriple 1 = interpret_emissions 130 from rfl]
      unfold interpret_emissions
      rw [if_neg h1, if_pos h2, if_neg (show ¬ (130 : ℚ) < 120 by norm_num),
        if_pos (show (130 : ℚ) < 160 by norm_num)]
    · refine ⟨by norm_num, ?_⟩
      rw [show bandTriple 2 = interpret_emissions 180 from rfl]
      unfold interpret_emissions
      rw [if_neg h1, if_neg h2, if_pos h3, if_neg (show ¬ (180 : ℚ) < 120 by norm_num),
        if_neg (show ¬ (180 : ℚ) < 160 by norm_num),
        if_pos (show (180 : ℚ) < 200 by norm_num)]
    · refine ⟨by norm_num, ?_⟩
      rw [show bandTriple 3 = interpret_emissions 220 from rfl]
      unfold interpret_emissions
      rw [if_neg h1, if_neg h2, if_neg h3, if_pos h4,
        if_neg (show ¬ (220 : ℚ) < 120 by norm_num),
        if_neg (show ¬ (220 : ℚ) < 160 by norm_num),
        if_neg (show ¬ (220 : ℚ) < 200 by norm_num),
        if_pos (show (220 : ℚ) < 250 by norm_num)]
    · refine ⟨by norm_num, ?_⟩
      rw [show bandTriple 4 = interpret_emissions 300 from rfl]
      unfold interpret_emissions
      rw [if_neg h1, if_neg h2, if_neg h3, if_neg h4,
        if_neg (show ¬ (300 : ℚ) < 120 by norm_num),
        if_neg (show ¬ (300 : ℚ) < 160 by norm_num),
        if_neg (show ¬ (300 : ℚ) < 200 by norm_num),
        if_neg (show ¬ (300 : ℚ) < 250 by norm_num)]
  · intro x y hxy
    unfold bandOf
    split_ifs <;> first | omega | (exfalso; linarith)

/-- Witness for C10: monotonicity instantiated at the concrete pair
100 ≤ 300. -/
theorem interpret_emissions_total_monotone_witness :
    bandOf 100 ≤ bandOf 300 :=
  interpret_emissions_total_monotone.2 100 300 (by norm_num)

end DriveGreen

namespace DriveGreen

/-- C8: the forward numeric transform (`np.log` in `preprocess_input`) and
the inverse transform (`np.exp` in `predict_emissions`) compose to the
identity on every strictly positive value; in the real-valued model the
round trip is exact, hence within any floating-point tolerance. -/
theorem forward_inverse_round_trip (x : ℝ) (hx : 0 < x) :
    inverseTargetTransform (forwardNumericTransform x) = x := by
  unfold inverseTargetTransform forwardNumericTransform
  exact Real.exp_log hx

/-- Witness for C8: the round trip at the sample value engine_size = 2.0. -/
theorem forward_inverse_round_trip_witness :
    (0 : ℝ) < 2 ∧ inverseTargetTransform (forwardNumericTransform 2) = 2 :=
  ⟨by norm_num, forward_inverse_round_trip 2 (by norm_num)⟩

/-- C9: under the validated precondition — `engine_size` in `[0.9, 8.4]`
and `cylinders` in `[3, 16]` — both arguments of the log transform in
`preprocess_input` are strictly positive, so the step returns the
log-transformed pair and the caught-`ValueError` branch ("Log transform
error") is never taken. -/
theorem log_error_branch_unreachable (e : ℚ) (c : ℤ)
    (he : validate_engine_size e = .ok e) (hc : validate_cylinders c = .ok c) :
    logTransformStep e c =
      .ok (forwardNumericTransform e, forwardNumericTransform c) := by
  have hb := engine_bounds_of_ok e he
  have hcb := cylinder_bounds_of_ok c hc
  exact logTransformStep_pos e c (by linarith [hb.1]) (by linarith [hcb.1])

/-- Witness for C9: the log step at the validated input
engine_size = 2.0, cylinders = 4. -/
theorem log_error_branch_unreachable_witness :
    logTransformStep 2 4 =
      .ok (forwardNumericTransform 2, forwardNumericTransform 4) :=
  log_error_branch_unreachable 2 4 (by norm_num [validate_engine_size])
    (by norm_num [validate_cylinders])

end DriveGreen

namespace DriveGreen

/-- On a known category and strictly positive numeric inputs,
`predict_router.preprocess_input` succeeds and hands the scaler exactly
`[log engine, log cylinders] ++ one-hot`. -/
theorem predictRouterPreprocess_ok (sc : ScalerModel) (fuel : String)
    (e : ℚ) (c : ℤ) (hf : fuel ∈ trainedFuelCategories)
    (he : 0 < e) (hc : 0 < c) :
    predictRouterPreprocess (some trainedFuelCategories) (some sc) fuel e c =
      .ok (scalerTransform sc
        (forwardNumericTransform e :: forwardNumericTransform c ::
          (oneHotEncode trainedFuelCategories fuel).map (fun q => (q : ℝ)))) := by
  unfold predictRouterPreprocess
  rw [logTransformStep_pos e c he hc]
  simp [encoderTransform, hf]

/-- The one-hot vector of any of the five trained fuel codes is the vector
with a single 1 at the column the encoder order assigns to that code. -/
theorem oneHotEncode_eq_spec (fuel : String) (hf : fuel ∈ trainedFuelCategories) :
    oneHotEncode trainedFuelCategories fuel =
      oneHotSpec (trainedFuelCategories.indexOf fuel) := by
  have h5 : fuel = "X" ∨ fuel = "Z" ∨ fuel = "E" ∨ fuel = "D" ∨ fuel = "N" := by
    simpa [trainedFuelCategories] using hf
  rcases h5 with rfl | rfl | rfl | rfl | rfl <;> rfl

/-- C1: for every validated input, the pre-scaling output of
`predict_router.preprocess_input` is the concatenation
`[transformed engine size, transformed cylinder count, one-hot fuel
indicators]` in exactly that order, and for each of the five fuel codes the
one-hot block contains exactly one 1 with the rest 0s, at the column index
the encoder-declared order assigns to that code. -/
theorem preScaling_vector_concat_oneHot (sc : ScalerModel) (fuel : String)
    (e : ℚ) (c : ℤ) (hf : fuel ∈ trainedFuelCategories)
    (he : validate_engine_size e = .ok e) (hc : validate_cylinders c = .ok c) :
    predictRouterPreprocess (some trainedFuelCategories) (some sc) fuel e c =
      .ok (scalerTransform sc
        (forwardNumericTransform e :: forwardNumericTransform c ::
          (oneHotEncode trainedFuelCategories fuel).map (fun q => (q : ℝ))))
  ∧ oneHotEncode trainedFuelCategories fuel =
      oneHotSpec (trainedFuelCategories.indexOf fuel) := by
  have hb := engine_bounds_of_ok e he
  have hcb := cylinder_bounds_of_ok c hc
  exact ⟨predictRouterPreprocess_ok sc fuel e c hf (by linarith [hb.1]) (by linarith [hcb.1]),
    oneHotEncode_eq_spec fuel hf⟩

/-- Witness for C1: the pipeline at fuel "D" (encoder column 3),
engine_size = 2.0, cylinders = 4. -/
theorem preScaling_vector_concat_oneHot_witness :
    predictRouterPreprocess (some trainedFuelCategories) (some sampleScaler) "D" 2 4 =
      .ok (scalerTransform sampleScaler
        (forwardNumericTransform ((2 : ℚ) : ℝ) :: forwardNumericTransform ((4 : ℤ) : ℝ) ::
          (oneHotEncode trainedFuelCategories "D").map (fun q => (q : ℝ))))
  ∧ oneHotEncode trainedFuelCategories "D" = oneHotSpec 3 :=
  preScaling_vector_concat_oneHot sampleScaler "D" 2 4 (by decide)
    (by norm_num [validate_engine_size]) (by norm_num [validate_cylinders])

end DriveGreen

namespace DriveGreen

/-- On a known category, `utils/preprocess.py` succeeds and hands the
scaler the RAW numeric values concatenated with the one-hot block. -/
theorem utilsPreprocessInput_ok (sc : ScalerModel) (fuel : String)
    (e q : ℚ) (hf : fuel ∈ trainedFuelCategories) :
    utilsPreprocessInput trainedFuelCategories sc fuel e q =
      .ok (scalerTransform sc
        ((e : ℝ) :: (q : ℝ) ::
          (oneHotEncode trainedFuelCategories fuel).map (fun x => (x : ℝ)))) := by
  unfold utilsPreprocessInput
  simp [encoderTransform, hf, utilsPreScaling]

/-- C5 counterexample: at engine_size = 2.0, cylinders = 4, fuel "X", the
vector `utils/preprocess.py` hands to the scaler starts with the raw value
2, not with the log-transformed value — the numeric log transform the claim
asserts is not applied there. -/
theorem utils_preprocess_no_log_counterexample :
    (utilsPreScaling trainedFuelCategories "X" 2 4).map (fun x => (x : ℝ)) ≠
      forwardNumericTransform ((2 : ℚ) : ℝ) :: forwardNumericTransform ((4 : ℚ) : ℝ) ::
        (oneHotEncode trainedFuelCategories "X").map (fun x => (x : ℝ)) := by
  intro h
  have h0 : ((2 : ℚ) : ℝ) = forwardNumericTransform ((2 : ℚ) : ℝ) := by
    have hh := congrArg List.headI h
    simpa [utilsPreScaling] using hh
  have hlt : forwardNumericTransform ((2 : ℚ) : ℝ) < ((2 : ℚ) : ℝ) := by
    unfold forwardNumericTransform
    have := Real.log_le_sub_one_of_pos (x := ((2 : ℚ) : ℝ)) (by norm_num)
    have h2 : ((2 : ℚ) : ℝ) = 2 := by norm_num
    rw [h2] at this ⊢
    linarith
  rw [← h0] at hlt
  exact absurd hlt (lt_irrefl _)

/-- C5 amended: the router preprocessing functions apply the logarithmic
transform to engine size and cylinder count independently before combining
with the one-hot block and scaling, but the preprocessing function in
`src/backend/utils/preprocess.py` applies no numeric transform — it hands
the scaler the raw engine-size and cylinder values. -/
theorem numeric_transform_before_scaling (sc : ScalerModel) (fuel : String)
    (e : ℚ) (c : ℤ) (q : ℚ) (hf : fuel ∈ trainedFuelCategories)
    (he : 0 < e) (hc : 0 < c) :
    predictRouterPreprocess (some trainedFuelCategories) (some sc) fuel e c =
      .ok (scalerTransform sc
        (forwardNumericTransform e :: forwardNumericTransform c ::
          (oneHotEncode trainedFuelCategories fuel).map (fun x => (x : ℝ))))
  ∧ utilsPreprocessInput trainedFuelCategories sc fuel e q =
      .ok (scalerTransform sc
        ((e : ℝ) :: (q : ℝ) ::
          (oneHotEncode trainedFuelCategories fuel).map (fun x => (x : ℝ)))) :=
  ⟨predictRouterPreprocess_ok sc fuel e c hf he hc,
   utilsPreprocessInput_ok sc fuel e q hf⟩

/-- Witness for C5 (amended): both pipelines at fuel "X",
engine_size = 2.0, cylinders = 4. -/
theorem numeric_transform_before_scaling_witness :
    predictRouterPreprocess (some trainedFuelCategories) (some sampleScaler) "X" 2 4 =
      .ok (scalerTransform sampleScaler
        (forwardNumericTransform ((2 : ℚ) : ℝ) :: forwardNumericTransform ((4 : ℤ) : ℝ) ::
          (oneHotEncode trainedFuelCategories "X").map (fun x => (x : ℝ))))
  ∧ utilsPreprocessInput trainedFuelCategories sampleScaler "X" 2 4 =
      .ok (scalerTransform sampleScaler
        (((2 : ℚ) : ℝ) :: ((4 : ℚ) : ℝ) ::
          (oneHotEncode trainedFuelCategories "X").map (fun x => (x : ℝ)))) :=
  numeric_transform_before_scaling sampleScaler "X" 2 4 4 (by decide)
    (by norm_num) (by norm_num)

/-- C4: if any of the three artifacts is `None` when `/predict` is invoked,
the endpoint fails with the 503 service-unavailable error, for every input
and independently of everything else — no transformation or inference is
performed. -/
theorem predict_missing_artifact (model : Option Regressor)
    (encoder : Option (List String)) (scaler : Option ScalerModel)
    (h : model = none ∨ encoder = none ∨ scaler = none) :
    ∀ (fuel : String) (e : ℚ) (c : ℤ),
      predict_emissions model encoder scaler fuel e c =
        .httpError 503 "Prediction service not fully initialized. Missing model, encoder, or scaler." := by
  intro fuel e c
  rcases h with h | h | h
  · subst h
    cases encoder <;> cases scaler <;> rfl
  · subst h
    cases model <;> cases scaler <;> rfl
  · subst h
    cases model <;> cases encoder <;> rfl

/-- Witness for C4: the endpoint with the regressor artifact absent,
at the example input. -/
theorem predict_missing_artifact_witness :
    predict_emissions none (some trainedFuelCategories) (some sampleScaler) "X" 2 4 =
      .httpError 503 "Prediction service not fully initialized. Missing model, encoder, or scaler." :=
  predict_missing_artifact none (some trainedFuelCategories) (some sampleScaler)
    (Or.inl rfl) "X" 2 4

end DriveGreen

namespace DriveGreen

/-- C6 counterexample: the `/predict` endpoint of `src/backend/app.py`
surfaces an exception raised during transformation or inference as a
status-200 JSON body carrying the raw message — a status in neither the
4xx client class nor the 5xx infrastructure class, so the endpoint makes no
such class distinction. -/
theorem app_error_surface_counterexample :
    app_predict_emission (.error (.valueError "Scaler not loaded. Cannot perform feature scaling.")) =
      (200, .errorBody "Scaler not loaded. Cannot perform feature scaling.")
  ∧ ¬ statusIsClientError 200 ∧ ¬ statusIsServerError 200 := by
  refine ⟨rfl, ?_, ?_⟩ <;> simp [statusIsClientError, statusIsServerError]

/-- C6 amended: the router endpoint catches every exception of the
transform/inference body and surfaces it as a typed `HTTPException` —
`ValueError` as 422 and any other exception as 400, both in the 4xx client
class — while missing artifacts yield 503 in the 5xx class; the `app.py`
endpoint also catches every exception but returns it as a status-200 JSON
error body, making no 4xx/5xx distinction. -/
theorem error_surfacing_classes :
    (∀ (m : Regressor) (enc : List String) (sc : ScalerModel) (fuel : String)
        (e : ℚ) (c : ℤ) (exc : PyExc),
      predictRouterPreprocess (some enc) (some sc) fuel e c = .error exc →
      predict_emissions (some m) (some enc) (some sc) fuel e c = excHandler exc)
  ∧ (∀ (m : Regressor) (enc : List String) (sc : ScalerModel) (fuel : String)
        (e : ℚ) (c : ℤ) (feats : List ℝ) (exc : PyExc),
      predictRouterPreprocess (some enc) (some sc) fuel e c = .ok feats →
      m feats = .error exc →
      predict_emissions (some m) (some enc) (some sc) fuel e c = excHandler exc)
  ∧ (∀ msg, excHandler (.valueError msg) = .httpError 422 msg)
  ∧ (∀ msg, excHandler (.attributeError msg) = .httpError 400 ("Prediction error: " ++ msg))
  ∧ statusIsClientError 422 ∧ statusIsClientError 400 ∧ statusIsServerError 503
  ∧ (∀ exc : PyExc, (app_predict_emission (.error exc)).1 = 200
      ∧ ¬ statusIsClientError 200 ∧ ¬ statusIsServerError 200) := by
  refine ⟨?_, ?_, fun _ => rfl, fun _ => rfl, ?_, ?_, ?_, ?_⟩
  · intro m enc sc fuel e c exc h
    show predictTryBody m enc sc fuel e c = excHandler exc
    unfold predictTryBody
    rw [h]
  · intro m enc sc fuel e c feats exc h hm
    show predictTryBody m enc sc fuel e c = excHandler exc
    unfold predictTryBody
    rw [h]
    simp only [hm]
  · exact ⟨by norm_num, by norm_num⟩
  · exact ⟨by norm_num, by norm_num⟩
  · exact ⟨by norm_num, by norm_num⟩
  · intro exc
    exact ⟨rfl, by simp [statusIsClientError], by simp [statusIsServerError]⟩

/-- Witness for C6 (amended): a `ValueError` raised inside the transform
(log of the non-positive engine size 0) surfaces as the typed 422 handler
result. -/
theorem error_surfacing_classes_witness :
    predict_emissions (some (fun _ => .ok 0)) (some trainedFuelCategories)
        (some sampleScaler) "X" 0 4 =
      excHandler (.valueError "Log transform error: math domain error. Engine size and cylinders must be positive.") :=
  error_surfacing_classes.1 (fun _ => .ok 0) trainedFuelCategories sampleScaler
    "X" 0 4 (.valueError "Log transform error: math domain error. Engine size and cylinders must be positive.")
    (by simp [predictRouterPreprocess, logTransformStep])

end DriveGreen

namespace DriveGreen

/-- C7 counterexample: `predict_router.preprocess_input` performs no
artifact check of its own — invoked with the encoder global absent (at the
valid input fuel "X", engine 2.0, cylinders 4) it fails with Python's
untyped `AttributeError` from calling `.transform` on `None`, not with a
typed artifact-missing `ValueError`. -/
theorem predictRouter_missing_encoder_counterexample :
    predictRouterPreprocess none (some sampleScaler) "X" 2 4 =
      .error (.attributeError "NoneType object has no attribute transform")
  ∧ isValueErrorResult (predictRouterPreprocess none (some sampleScaler) "X" 2 4) = false := by
  have h : predictRouterPreprocess none (some sampleScaler) "X" 2 4 =
      .error (.attributeError "NoneType object has no attribute transform") := by
    unfold predictRouterPreprocess
    rw [logTransformStep_pos 2 4 (by norm_num) (by norm_num)]
  exact ⟨h, by rw [h]; rfl⟩

/-- C7 amended: of the two transformer implementations only
`prediction_router.preprocess_input` is defensive at its own layer — with
the encoder absent it raises the typed "Encoder not loaded" `ValueError`,
with the scaler absent the typed "Scaler not loaded" `ValueError`, and a
fuel type outside the trained category set fails with the encoder's
unknown-category `ValueError`; `predict_router.preprocess_input` performs
no artifact check (see the counterexample). -/
theorem predictionRouter_preprocess_defensive (fuel : String) (e : ℚ)
    (c : ℤ) (he : 0 < e) (hc : 0 < c) :
    (∀ scaler, predictionRouterPreprocess none scaler fuel e c =
      .error (.valueError "Encoder not loaded. Cannot perform one-hot encoding."))
  ∧ (fuel ∉ trainedFuelCategories →
      ∀ scaler, predictionRouterPreprocess (some trainedFuelCategories) scaler fuel e c =
        .error (.valueError ("Found unknown categories during transform: " ++ fuel)))
  ∧ (fuel ∈ trainedFuelCategories →
      predictionRouterPreprocess (some trainedFuelCategories) none fuel e c =
        .error (.valueError "Scaler not loaded. Cannot perform feature scaling.")) := by
  refine ⟨?_, ?_, ?_⟩
  · intro scaler
    unfold predictionRouterPreprocess
    rw [logTransformStep_pos e c he hc]
  · intro hnf scaler
    unfold predictionRouterPreprocess
    rw [logTransformStep_pos e c he hc]
    simp [encoderTransform, hnf]
  · intro hf
    unfold predictionRouterPreprocess
    rw [logTransformStep_pos e c he hc]
    simp [encoderTransform, hf]

/-- Witness for C7 (amended): the three defensive failures at concrete
inputs — encoder absent, scaler absent, and the unknown fuel code "Q". -/
theorem predictionRouter_preprocess_defensive_witness :
    predictionRouterPreprocess none (some sampleScaler) "X" 2 4 =
      .error (.valueError "Encoder not loaded. Cannot perform one-hot encoding.")
  ∧ predictionRouterPreprocess (some trainedFuelCategories) none "X" 2 4 =
      .error (.valueError "Scaler not loaded. Cannot perform feature scaling.")
  ∧ predictionRouterPreprocess (some trainedFuelCategories) (some sampleScaler) "Q" 2 4 =
      .error (.valueError ("Found unknown categories during transform: " ++ "Q")) :=
  ⟨(predictionRouter_preprocess_defensive "X" 2 4 (by norm_num) (by norm_num)).1 (some sampleScaler),
   (predictionRouter_preprocess_defensive "X" 2 4 (by norm_num) (by norm_num)).2.2 (by decide),
   (predictionRouter_preprocess_defensive "Q" 2 4 (by norm_num) (by norm_num)).2.1 (by decide) (some sampleScaler)⟩

end DriveGreen
